import Mathlib

/-!
Shallow embedding of the frp-operator client reconciliation engine
(src/controllers/client_controller.go, function ClientReconciler.Reconcile)
together with theorems settling the specification claims.

The repository contains only the reconciler itself; the config model
builder, the artifact builders and the reload handler are collaborators
living outside this repository. They are modelled as abstract pure
functions bundled in `Collab`, exactly as the spec describes them
(pure, fallible). The object store is modelled as a deterministic
key-indexed state; every remote call the reconciler makes is recorded in
an event trace, including which context value (the caller context or the
fresh context.TODO value) the call received.
-/

namespace Frp

/-- identity of a namespaced Kubernetes object: namespace and name
(types.NamespacedName). -/
structure NamespacedName where
  ns : String
  name : String
deriving DecidableEq

/-- the context value a remote call receives: either the caller-supplied
reconcile context `ctx`, or a fresh `context.TODO()` value that carries no
cancellation signal. -/
inductive CtxVal
  | caller
  | todo
deriving DecidableEq

/-- the Client declaration object (frpv1alpha1.Client). The reconciler
reads its identity directly; the rest of its spec is consumed opaquely by
the collaborator `NewConfig`, so it is kept as an opaque payload string. -/
structure Client where
  ns : String
  name : String
  payload : String
deriving DecidableEq

/-- an Upstream object (frpv1alpha1.Upstream): identity, the declared
owning-client reference field `Spec.Client` (a bare name string), and an
opaque payload for the remaining spec fields. -/
structure Upstream where
  ns : String
  name : String
  specClient : String
  payload : String
deriving DecidableEq

/-- the domain config (models.Config). The field mutated by the
reconciler, `Common.AdminAddress`, is explicit; everything else the
collaborators put in the config is an opaque body. -/
structure Config where
  adminAddress : String
  body : String
deriving DecidableEq

/-- a ConfigMap object (corev1.ConfigMap): identity, the `Data` map
(`none` models a nil map, the zero value; `some l` a non-nil map with
entries `l`), and the controller owner reference if one is set. -/
structure ConfigMap where
  ns : String
  name : String
  data : Option (List (String × String))
  owner : Option NamespacedName
deriving DecidableEq

/-- a Pod object (corev1.Pod): identity, container image, observed status
(phase and pod IP, both empty strings in the zero value), and the
controller owner reference if one is set. -/
structure Pod where
  ns : String
  name : String
  image : String
  phase : String
  podIP : String
  owner : Option NamespacedName
deriving DecidableEq

/-- zero value of a ConfigMap, as produced by `&corev1.ConfigMap{}`. -/
def emptyConfigMap : ConfigMap := ⟨"", "", none, none⟩

/-- zero value of a Pod, as produced by `&corev1.Pod{}`; its phase is the
empty string, not Running. -/
def emptyPod : Pod := ⟨"", "", "", "", "", none⟩

/-- the collaborators the reconciler calls, all outside this repository:
the config model builder (models.NewConfig), the configuration document
builder (builder.ConfigurationBuilder), the config map builder
(builder.ConfigMapBuilder), the pod builder (builder.PodBuilder) and the
reload handler (handler.Reload). All are pure functions per the spec;
`Reload` returns `some e` when the reload call fails with error e. -/
structure Collab where
  NewConfig : Client → List Upstream → Except String Config
  ConfigurationBuild : Config → Except String String
  ConfigMapBuild : String → String → String → Except String ConfigMap
  PodBuild : String → String → String → Except String Pod
  Reload : Config → Option String

/-- the object store state: the typed Client objects, the full Upstream
listing, and the generic ConfigMap and Pod objects, each keyed by
namespace plus name. -/
structure Store where
  clients : NamespacedName → Option Client
  upstreams : List Upstream
  configMaps : NamespacedName → Option ConfigMap
  pods : NamespacedName → Option Pod

/-- controllerutil.SetControllerReference for a ConfigMap child: fails on
a cross-namespace owner or when a different controller already owns the
object; otherwise records the owner reference. -/
def SetControllerReferenceConfigMap (owner : Client) (cm : ConfigMap) :
    Except String ConfigMap :=
  if cm.ns ≠ owner.ns then .error "cross-namespace owner reference"
  else
    match cm.owner with
    | some o =>
      if o = NamespacedName.mk owner.ns owner.name then
        .ok { cm with owner := some (NamespacedName.mk owner.ns owner.name) }
      else .error "object already owned by another controller"
    | none => .ok { cm with owner := some (NamespacedName.mk owner.ns owner.name) }

/-- controllerutil.SetControllerReference for a Pod child, same contract
as for a ConfigMap. -/
def SetControllerReferencePod (owner : Client) (p : Pod) :
    Except String Pod :=
  if p.ns ≠ owner.ns then .error "cross-namespace owner reference"
  else
    match p.owner with
    | some o =>
      if o = NamespacedName.mk owner.ns owner.name then
        .ok { p with owner := some (NamespacedName.mk owner.ns owner.name) }
      else .error "object already owned by another controller"
    | none => .ok { p with owner := some (NamespacedName.mk owner.ns owner.name) }

/-- the upstream filter from the reconciler: keep exactly the upstreams
whose `Spec.Client` field equals the client declaration name. -/
def filteredUpstreams (client : Client) (items : List Upstream) : List Upstream :=
  items.filter fun upstream => upstream.specClient == client.name

/-- the API server persists a created Pod with an empty status: the
status stanza is a subresource and is ignored on Create, so a freshly
created Pod is observed with empty phase and empty pod IP until the
runtime updates it. -/
def createdPodObject (p : Pod) : Pod := { p with phase := "", podIP := "" }

/-- store update performed by a successful Create of a ConfigMap. -/
def Store.insertConfigMap (s : Store) (cm : ConfigMap) : Store :=
  { s with configMaps := fun k =>
      if k = NamespacedName.mk cm.ns cm.name then some cm else s.configMaps k }

/-- store update performed by a successful Create of a Pod; the submitted
status stanza is dropped (see `createdPodObject`). -/
def Store.insertPod (s : Store) (p : Pod) : Store :=
  { s with pods := fun k =>
      if k = NamespacedName.mk p.ns p.name then some (createdPodObject p)
      else s.pods k }

/-- one event of a reconcile pass: each remote store call with the
context value it received, the post-creation sleep, the pod readiness
check, the drift comparison with the two compared Data values, and each
reload handler invocation with the config it was given. -/
inductive Ev
  | getClient (ctxv : CtxVal) (key : NamespacedName)
  | listUpstreams (ctxv : CtxVal)
  | getConfigMap (ctxv : CtxVal) (key : NamespacedName)
  | createConfigMap (ctxv : CtxVal) (cm : ConfigMap)
  | getPod (ctxv : CtxVal) (key : NamespacedName)
  | createPod (ctxv : CtxVal) (p : Pod)
  | sleepSeconds (n : Nat)
  | checkPodRunning (phase : String)
  | driftCompare (stored rendered : Option (List (String × String)))
  | reload (cfg : Config)
deriving DecidableEq

/-- ctrl.Result: the requeue delay in seconds; `0` is the zero result
`ctrl.Result\x7b\x7d`. -/
structure CtrlResult where
  requeueAfter : Nat
deriving DecidableEq

/-- outcome of one reconcile pass: the returned result and error, the
store state after the pass, and the ordered event trace. -/
structure Outcome where
  result : CtrlResult
  err : Option String
  store : Store
  trace : List Ev

/-- shallow embedding of ClientReconciler.Reconcile
(src/controllers/client_controller.go lines 53 to 160), step for step:
get the Client with the caller context; list all Upstreams with the
caller context; filter by owning-client name; build the domain config,
the configuration document and the config map; set the controller
reference; get the config map with context.TODO and create it if absent;
build the pod and set its controller reference; get the pod with
context.TODO and create it if absent, then sleep ten seconds; if the
observed pod phase is not Running return a ten second requeue without
error; otherwise deep-compare the fetched config map Data with the
rendered Data, and on a difference set the config admin address to the
observed pod IP and call the reload handler, aborting with its error if
it fails; finally return a thirty second requeue without error. -/
def Reconcile (co : Collab) (s : Store) (req : NamespacedName) : Outcome :=
  let t0 := [Ev.getClient .caller req]
  match s.clients req with
  | none => ⟨⟨0⟩, some "client not found", s, t0⟩
  | some client =>
    let t1 := t0 ++ [Ev.listUpstreams .caller]
    let filtered := filteredUpstreams client s.upstreams
    match co.NewConfig client filtered with
    | .error e => ⟨⟨0⟩, some e, s, t1⟩
    | .ok config =>
      match co.ConfigurationBuild config with
      | .error e => ⟨⟨0⟩, some e, s, t1⟩
      | .ok configuration =>
        match co.ConfigMapBuild configuration client.name client.ns with
        | .error e => ⟨⟨0⟩, some e, s, t1⟩
        | .ok configmap0 =>
          match SetControllerReferenceConfigMap client configmap0 with
          | .error e => ⟨⟨0⟩, some e, s, t1⟩
          | .ok configmap =>
            let cmKey := NamespacedName.mk configmap.ns configmap.name
            let t2 := t1 ++ [Ev.getConfigMap .todo cmKey]
            let step2 :=
              match s.configMaps cmKey with
              | none =>
                (s.insertConfigMap configmap,
                 t2 ++ [Ev.createConfigMap .todo configmap], emptyConfigMap)
              | some cm => (s, t2, cm)
            let s2 := step2.1
            let t3 := step2.2.1
            let createdConfigMap := step2.2.2
            match co.PodBuild client.name client.ns "fatedier/frpc:v0.43.0" with
            | .error e => ⟨⟨0⟩, some e, s2, t3⟩
            | .ok pod0 =>
              match SetControllerReferencePod client pod0 with
              | .error e => ⟨⟨0⟩, some e, s2, t3⟩
              | .ok pod =>
                let podKey := NamespacedName.mk pod.ns pod.name
                let t4 := t3 ++ [Ev.getPod .todo podKey]
                let step3 :=
                  match s2.pods podKey with
                  | none =>
                    (s2.insertPod pod,
                     t4 ++ [Ev.createPod .todo pod, Ev.sleepSeconds 10], emptyPod)
                  | some p => (s2, t4, p)
                let s3 := step3.1
                let t5 := step3.2.1
                let createdPod := step3.2.2
                let t6 := t5 ++ [Ev.checkPodRunning createdPod.phase]
                if createdPod.phase ≠ "Running" then
                  ⟨⟨10⟩, none, s3, t6⟩
                else
                  let t7 := t6 ++ [Ev.driftCompare createdConfigMap.data configmap.data]
                  if createdConfigMap.data ≠ configmap.data then
                    let config2 := { config with adminAddress := createdPod.podIP }
                    let t8 := t7 ++ [Ev.reload config2]
                    match co.Reload config2 with
                    | some e => ⟨⟨0⟩, some e, s3, t8⟩
                    | none => ⟨⟨30⟩, none, s3, t8⟩
                  else ⟨⟨30⟩, none, s3, t7⟩

/-- the ConfigMap objects a trace submitted to Create. -/
def createdConfigMaps (t : List Ev) : List ConfigMap :=
  t.filterMap fun e =>
    match e with
    | .createConfigMap _ cm => some cm
    | _ => none

/-- the Pod objects a trace submitted to Create. -/
def createdPods (t : List Ev) : List Pod :=
  t.filterMap fun e =>
    match e with
    | .createPod _ p => some p
    | _ => none

/-- the configs a trace passed to the reload handler. -/
def reloadCalls (t : List Ev) : List Config :=
  t.filterMap fun e =>
    match e with
    | .reload cfg => some cfg
    | _ => none

/-- the pairs of Data values a trace deep-compared for drift. -/
def driftCompares (t : List Ev) :
    List (Option (List (String × String)) × Option (List (String × String))) :=
  t.filterMap fun e =>
    match e with
    | .driftCompare a b => some (a, b)
    | _ => none

end Frp

namespace Frp

/-- C1: with a stored Configuration Artifact whose content differs from
the freshly rendered document and a Running Worker Process, Reconcile
invokes the Reload Notifier exactly once, with a config whose live
admin address equals the observed pod IP; if that reload returns an
error, the pass returns that error together with the zero result. -/
theorem C1_drift_triggers_single_reload
    (co : Collab) (s : Store) (req : NamespacedName)
    (client : Client) (config : Config) (configuration : String)
    (cm0 cm scm : ConfigMap) (pod0 pod p : Pod) (e : String)
    (h1 : s.clients req = some client)
    (h2 : co.NewConfig client (filteredUpstreams client s.upstreams) = .ok config)
    (h3 : co.ConfigurationBuild config = .ok configuration)
    (h4 : co.ConfigMapBuild configuration client.name client.ns = .ok cm0)
    (h5 : SetControllerReferenceConfigMap client cm0 = .ok cm)
    (h6 : s.configMaps (NamespacedName.mk cm.ns cm.name) = some scm)
    (h7 : scm.data ≠ cm.data)
    (h8 : co.PodBuild client.name client.ns "fatedier/frpc:v0.43.0" = .ok pod0)
    (h9 : SetControllerReferencePod client pod0 = .ok pod)
    (h10 : s.pods (NamespacedName.mk pod.ns pod.name) = some p)
    (h11 : p.phase = "Running") :
    reloadCalls (Reconcile co s req).trace = [{ config with adminAddress := p.podIP }] ∧
    (co.Reload { config with adminAddress := p.podIP } = some e →
      (Reconcile co s req).err = some e ∧
      (Reconcile co s req).result = CtrlResult.mk 0) := by
  cases hrl : co.Reload { config with adminAddress := p.podIP } with
  | none =>
    simp only [Reconcile, h1, h2, h3, h4, h5, h6, h8, h9, h10, h11, hrl]
    simp [reloadCalls, h7]
  | some e2 =>
    simp only [Reconcile, h1, h2, h3, h4, h5, h6, h8, h9, h10, h11, hrl]
    simp [reloadCalls, h7]

end Frp

namespace Frp

/-- concrete identity used by the witness scenarios. -/
def wKey : NamespacedName := ⟨"ns1", "alpha"⟩

/-- concrete client declaration used by the witness scenarios. -/
def wClient : Client := ⟨"ns1", "alpha", "payload"⟩

/-- concrete collaborator functions used by the witness scenarios: the
config body is a fixed string, the rendered document is the config body,
the config map wraps the document under the frpc.ini key, the pod carries
the requested image, and the reload handler always fails with a fixed
error. -/
def wCo : Collab where
  NewConfig := fun _ _ => .ok ⟨"", "body"⟩
  ConfigurationBuild := fun cfg => .ok cfg.body
  ConfigMapBuild := fun conf n nsp => .ok ⟨nsp, n, some [("frpc.ini", conf)], none⟩
  PodBuild := fun n nsp img => .ok ⟨nsp, n, img, "", "", none⟩
  Reload := fun _ => some "reload failed"

/-- witness store: stored artifact content differs from the rendered
document and the worker pod is Running. -/
def wStoreDrift : Store where
  clients := fun k => if k = wKey then some wClient else none
  upstreams := []
  configMaps := fun k =>
    if k = wKey then some ⟨"ns1", "alpha", some [("frpc.ini", "stale")], some wKey⟩
    else none
  pods := fun k =>
    if k = wKey then some ⟨"ns1", "alpha", "img", "Running", "10.1.2.3", some wKey⟩
    else none

/-- C1 witness: the drift scenario evaluated at the concrete fixtures. -/
theorem C1_drift_triggers_single_reload_witness :
    reloadCalls (Reconcile wCo wStoreDrift wKey).trace = [⟨"10.1.2.3", "body"⟩] ∧
    (wCo.Reload ⟨"10.1.2.3", "body"⟩ = some "reload failed" →
      (Reconcile wCo wStoreDrift wKey).err = some "reload failed" ∧
      (Reconcile wCo wStoreDrift wKey).result = CtrlResult.mk 0) :=
  C1_drift_triggers_single_reload wCo wStoreDrift wKey wClient ⟨"", "body"⟩ "body"
    ⟨"ns1", "alpha", some [("frpc.ini", "body")], none⟩
    ⟨"ns1", "alpha", some [("frpc.ini", "body")], some wKey⟩
    ⟨"ns1", "alpha", some [("frpc.ini", "stale")], some wKey⟩
    ⟨"ns1", "alpha", "fatedier/frpc:v0.43.0", "", "", none⟩
    ⟨"ns1", "alpha", "fatedier/frpc:v0.43.0", "", "", some wKey⟩
    ⟨"ns1", "alpha", "img", "Running", "10.1.2.3", some wKey⟩
    "reload failed"
    (by decide) (by rfl) (by rfl) (by rfl) (by rfl) (by decide)
    (by decide) (by rfl) (by rfl) (by decide) (by decide)

/-- a successful SetControllerReference on a ConfigMap records the owner
reference to the given client. -/
theorem setControllerReferenceConfigMap_owner {owner : Client} {x y : ConfigMap}
    (h : SetControllerReferenceConfigMap owner x = .ok y) :
    y.owner = some (NamespacedName.mk owner.ns owner.name) := by
  unfold SetControllerReferenceConfigMap at h
  split at h
  · exact Except.noConfusion h
  · split at h
    · split at h
      · injection h with h
        subst h
        rfl
      · exact Except.noConfusion h
    · injection h with h
      subst h
      rfl

/-- a successful SetControllerReference on a Pod records the owner
reference to the given client. -/
theorem setControllerReferencePod_owner {owner : Client} {x y : Pod}
    (h : SetControllerReferencePod owner x = .ok y) :
    y.owner = some (NamespacedName.mk owner.ns owner.name) := by
  unfold SetControllerReferencePod at h
  split at h
  · exact Except.noConfusion h
  · split at h
    · split at h
      · injection h with h
        subst h
        rfl
      · exact Except.noConfusion h
    · injection h with h
      subst h
      rfl

end Frp

namespace Frp

/-- C4: when the observed Worker Process phase is not Running, Reconcile
returns no error together with a ten second requeue, and performs no
drift comparison and no reload call in that pass. -/
theorem C4_not_running_short_requeue
    (co : Collab) (s : Store) (req : NamespacedName)
    (client : Client) (config : Config) (configuration : String)
    (cm0 cm : ConfigMap) (pod0 pod : Pod)
    (h1 : s.clients req = some client)
    (h2 : co.NewConfig client (filteredUpstreams client s.upstreams) = .ok config)
    (h3 : co.ConfigurationBuild config = .ok configuration)
    (h4 : co.ConfigMapBuild configuration client.name client.ns = .ok cm0)
    (h5 : SetControllerReferenceConfigMap client cm0 = .ok cm)
    (h8 : co.PodBuild client.name client.ns "fatedier/frpc:v0.43.0" = .ok pod0)
    (h9 : SetControllerReferencePod client pod0 = .ok pod)
    (h12 : ((s.pods (NamespacedName.mk pod.ns pod.name)).getD emptyPod).phase ≠ "Running") :
    (Reconcile co s req).err = none ∧
    (Reconcile co s req).result = CtrlResult.mk 10 ∧
    driftCompares (Reconcile co s req).trace = [] ∧
    reloadCalls (Reconcile co s req).trace = [] := by
  cases hcm : s.configMaps (NamespacedName.mk cm.ns cm.name) with
  | none =>
    cases hp : s.pods (NamespacedName.mk pod.ns pod.name) with
    | none =>
      simp only [Reconcile, Store.insertConfigMap, h1, h2, h3, h4, h5, h8, h9, hcm, hp]
      simp [driftCompares, reloadCalls, emptyPod]
    | some p =>
      rw [hp] at h12
      simp only [Option.getD] at h12
      simp only [Reconcile, Store.insertConfigMap, h1, h2, h3, h4, h5, h8, h9, hcm, hp]
      simp [driftCompares, reloadCalls, h12]
  | some scm =>
    cases hp : s.pods (NamespacedName.mk pod.ns pod.name) with
    | none =>
      simp only [Reconcile, Store.insertConfigMap, h1, h2, h3, h4, h5, h8, h9, hcm, hp]
      simp [driftCompares, reloadCalls, emptyPod]
    | some p =>
      rw [hp] at h12
      simp only [Option.getD] at h12
      simp only [Reconcile, Store.insertConfigMap, h1, h2, h3, h4, h5, h8, h9, hcm, hp]
      simp [driftCompares, reloadCalls, h12]

/-- witness store: both managed objects exist, the pod phase is Pending. -/
def wStoreNotReady : Store where
  clients := fun k => if k = wKey then some wClient else none
  upstreams := []
  configMaps := fun k =>
    if k = wKey then some ⟨"ns1", "alpha", some [("frpc.ini", "body")], some wKey⟩
    else none
  pods := fun k =>
    if k = wKey then some ⟨"ns1", "alpha", "img", "Pending", "", some wKey⟩
    else none

/-- C4 witness: the not-ready scenario evaluated at the concrete
fixtures. -/
theorem C4_not_running_short_requeue_witness :
    (Reconcile wCo wStoreNotReady wKey).err = none ∧
    (Reconcile wCo wStoreNotReady wKey).result = CtrlResult.mk 10 ∧
    driftCompares (Reconcile wCo wStoreNotReady wKey).trace = [] ∧
    reloadCalls (Reconcile wCo wStoreNotReady wKey).trace = [] :=
  C4_not_running_short_requeue wCo wStoreNotReady wKey wClient ⟨"", "body"⟩ "body"
    ⟨"ns1", "alpha", some [("frpc.ini", "body")], none⟩
    ⟨"ns1", "alpha", some [("frpc.ini", "body")], some wKey⟩
    ⟨"ns1", "alpha", "fatedier/frpc:v0.43.0", "", "", none⟩
    ⟨"ns1", "alpha", "fatedier/frpc:v0.43.0", "", "", some wKey⟩
    (by decide) (by rfl) (by rfl) (by rfl) (by rfl) (by rfl) (by rfl) (by decide)

/-- C6: when the stored artifact content equals the rendered document and
the worker pod is Running, Reconcile makes no reload call and returns no
error together with a thirty second requeue. -/
theorem C6_insync_no_reload
    (co : Collab) (s : Store) (req : NamespacedName)
    (client : Client) (config : Config) (configuration : String)
    (cm0 cm scm : ConfigMap) (pod0 pod p : Pod)
    (h1 : s.clients req = some client)
    (h2 : co.NewConfig client (filteredUpstreams client s.upstreams) = .ok config)
    (h3 : co.ConfigurationBuild config = .ok configuration)
    (h4 : co.ConfigMapBuild configuration client.name client.ns = .ok cm0)
    (h5 : SetControllerReferenceConfigMap client cm0 = .ok cm)
    (h6 : s.configMaps (NamespacedName.mk cm.ns cm.name) = some scm)
    (h7 : scm.data = cm.data)
    (h8 : co.PodBuild client.name client.ns "fatedier/frpc:v0.43.0" = .ok pod0)
    (h9 : SetControllerReferencePod client pod0 = .ok pod)
    (h10 : s.pods (NamespacedName.mk pod.ns pod.name) = some p)
    (h11 : p.phase = "Running") :
    reloadCalls (Reconcile co s req).trace = [] ∧
    (Reconcile co s req).err = none ∧
    (Reconcile co s req).result = CtrlResult.mk 30 := by
  simp only [Reconcile, h1, h2, h3, h4, h5, h6, h8, h9, h10, h11]
  simp [reloadCalls, h7]

/-- witness store: stored artifact content equals the rendered document
and the worker pod is Running. -/
def wStoreInSync : Store where
  clients := fun k => if k = wKey then some wClient else none
  upstreams := []
  configMaps := fun k =>
    if k = wKey then some ⟨"ns1", "alpha", some [("frpc.ini", "body")], some wKey⟩
    else none
  pods := fun k =>
    if k = wKey then some ⟨"ns1", "alpha", "img", "Running", "10.1.2.3", some wKey⟩
    else none

/-- C6 witness: the in-sync scenario evaluated at the concrete
fixtures. -/
theorem C6_insync_no_reload_witness :
    reloadCalls (Reconcile wCo wStoreInSync wKey).trace = [] ∧
    (Reconcile wCo wStoreInSync wKey).err = none ∧
    (Reconcile wCo wStoreInSync wKey).result = CtrlResult.mk 30 :=
  C6_insync_no_reload wCo wStoreInSync wKey wClient ⟨"", "body"⟩ "body"
    ⟨"ns1", "alpha", some [("frpc.ini", "body")], none⟩
    ⟨"ns1", "alpha", some [("frpc.ini", "body")], some wKey⟩
    ⟨"ns1", "alpha", some [("frpc.ini", "body")], some wKey⟩
    ⟨"ns1", "alpha", "fatedier/frpc:v0.43.0", "", "", none⟩
    ⟨"ns1", "alpha", "fatedier/frpc:v0.43.0", "", "", some wKey⟩
    ⟨"ns1", "alpha", "img", "Running", "10.1.2.3", some wKey⟩
    (by decide) (by rfl) (by rfl) (by rfl) (by rfl) (by decide) (by decide)
    (by rfl) (by rfl) (by decide) (by decide)

end Frp

namespace Frp

/-- C9: when the artifact is absent and therefore created in this pass,
the later drift comparison uses the zero-value fetched object, so with a
Running pod and a non-empty rendered Data map the reload handler is
invoked on the very same pass, even though the freshly created stored
artifact is exactly the rendered one. -/
theorem C9_fresh_artifact_still_reloads
    (co : Collab) (s : Store) (req : NamespacedName)
    (client : Client) (config : Config) (configuration : String)
    (cm0 cm : ConfigMap) (l : List (String × String)) (pod0 pod p : Pod)
    (h1 : s.clients req = some client)
    (h2 : co.NewConfig client (filteredUpstreams client s.upstreams) = .ok config)
    (h3 : co.ConfigurationBuild config = .ok configuration)
    (h4 : co.ConfigMapBuild configuration client.name client.ns = .ok cm0)
    (h5 : SetControllerReferenceConfigMap client cm0 = .ok cm)
    (h6 : s.configMaps (NamespacedName.mk cm.ns cm.name) = none)
    (hl : cm.data = some l)
    (hne : l ≠ [])
    (h8 : co.PodBuild client.name client.ns "fatedier/frpc:v0.43.0" = .ok pod0)
    (h9 : SetControllerReferencePod client pod0 = .ok pod)
    (h10 : s.pods (NamespacedName.mk pod.ns pod.name) = some p)
    (h11 : p.phase = "Running") :
    reloadCalls (Reconcile co s req).trace = [{ config with adminAddress := p.podIP }] ∧
    driftCompares (Reconcile co s req).trace = [(none, some l)] ∧
    (Reconcile co s req).store.configMaps (NamespacedName.mk cm.ns cm.name) = some cm := by
  cases hrl : co.Reload { config with adminAddress := p.podIP } with
  | none =>
    simp only [Reconcile, Store.insertConfigMap, h1, h2, h3, h4, h5, h6, h8, h9,
      h10, h11, hrl]
    simp [reloadCalls, driftCompares, emptyConfigMap, hl]
  | some e2 =>
    simp only [Reconcile, Store.insertConfigMap, h1, h2, h3, h4, h5, h6, h8, h9,
      h10, h11, hrl]
    simp [reloadCalls, driftCompares, emptyConfigMap, hl]

end Frp

namespace Frp

/-- witness store: the artifact is absent while the worker pod exists and
is Running. -/
def wStoreNoArtifact : Store where
  clients := fun k => if k = wKey then some wClient else none
  upstreams := []
  configMaps := fun _ => none
  pods := fun k =>
    if k = wKey then some ⟨"ns1", "alpha", "img", "Running", "10.1.2.3", some wKey⟩
    else none

/-- C9 witness: the freshly created artifact scenario evaluated at the
concrete fixtures. -/
theorem C9_fresh_artifact_still_reloads_witness :
    reloadCalls (Reconcile wCo wStoreNoArtifact wKey).trace = [⟨"10.1.2.3", "body"⟩] ∧
    driftCompares (Reconcile wCo wStoreNoArtifact wKey).trace =
      [(none, some [("frpc.ini", "body")])] ∧
    (Reconcile wCo wStoreNoArtifact wKey).store.configMaps wKey =
      some ⟨"ns1", "alpha", some [("frpc.ini", "body")], some wKey⟩ :=
  C9_fresh_artifact_still_reloads wCo wStoreNoArtifact wKey wClient ⟨"", "body"⟩ "body"
    ⟨"ns1", "alpha", some [("frpc.ini", "body")], none⟩
    ⟨"ns1", "alpha", some [("frpc.ini", "body")], some wKey⟩
    [("frpc.ini", "body")]
    ⟨"ns1", "alpha", "fatedier/frpc:v0.43.0", "", "", none⟩
    ⟨"ns1", "alpha", "fatedier/frpc:v0.43.0", "", "", some wKey⟩
    ⟨"ns1", "alpha", "img", "Running", "10.1.2.3", some wKey⟩
    (by decide) (by rfl) (by rfl) (by rfl) (by rfl) (by decide) (by decide)
    (by decide) (by rfl) (by rfl) (by decide) (by decide)

/-- C10: when the worker pod is absent it is created during the pass, and
the readiness check then reads the zero-value fetched pod whose phase is
the empty string, so the pass returns no error with a ten second requeue
and performs no drift comparison and no reload call. -/
theorem C10_created_pod_short_requeue
    (co : Collab) (s : Store) (req : NamespacedName)
    (client : Client) (config : Config) (configuration : String)
    (cm0 cm : ConfigMap) (pod0 pod : Pod)
    (h1 : s.clients req = some client)
    (h2 : co.NewConfig client (filteredUpstreams client s.upstreams) = .ok config)
    (h3 : co.ConfigurationBuild config = .ok configuration)
    (h4 : co.ConfigMapBuild configuration client.name client.ns = .ok cm0)
    (h5 : SetControllerReferenceConfigMap client cm0 = .ok cm)
    (h8 : co.PodBuild client.name client.ns "fatedier/frpc:v0.43.0" = .ok pod0)
    (h9 : SetControllerReferencePod client pod0 = .ok pod)
    (h13 : s.pods (NamespacedName.mk pod.ns pod.name) = none) :
    (Reconcile co s req).err = none ∧
    (Reconcile co s req).result = CtrlResult.mk 10 ∧
    createdPods (Reconcile co s req).trace = [pod] ∧
    Ev.checkPodRunning "" ∈ (Reconcile co s req).trace ∧
    driftCompares (Reconcile co s req).trace = [] ∧
    reloadCalls (Reconcile co s req).trace = [] := by
  cases hcm : s.configMaps (NamespacedName.mk cm.ns cm.name) with
  | none =>
    simp only [Reconcile, Store.insertConfigMap, h1, h2, h3, h4, h5, h8, h9, hcm, h13]
    simp [createdPods, driftCompares, reloadCalls, emptyPod]
  | some scm =>
    simp only [Reconcile, Store.insertConfigMap, h1, h2, h3, h4, h5, h8, h9, hcm, h13]
    simp [createdPods, driftCompares, reloadCalls, emptyPod]

/-- witness store: neither the artifact nor the worker pod exists. -/
def wStoreEmpty : Store where
  clients := fun k => if k = wKey then some wClient else none
  upstreams := []
  configMaps := fun _ => none
  pods := fun _ => none

/-- C10 witness: the fresh pod scenario evaluated at the concrete
fixtures. -/
theorem C10_created_pod_short_requeue_witness :
    (Reconcile wCo wStoreEmpty wKey).err = none ∧
    (Reconcile wCo wStoreEmpty wKey).result = CtrlResult.mk 10 ∧
    createdPods (Reconcile wCo wStoreEmpty wKey).trace =
      [⟨"ns1", "alpha", "fatedier/frpc:v0.43.0", "", "", some wKey⟩] ∧
    Ev.checkPodRunning "" ∈ (Reconcile wCo wStoreEmpty wKey).trace ∧
    driftCompares (Reconcile wCo wStoreEmpty wKey).trace = [] ∧
    reloadCalls (Reconcile wCo wStoreEmpty wKey).trace = [] :=
  C10_created_pod_short_requeue wCo wStoreEmpty wKey wClient ⟨"", "body"⟩ "body"
    ⟨"ns1", "alpha", some [("frpc.ini", "body")], none⟩
    ⟨"ns1", "alpha", some [("frpc.ini", "body")], some wKey⟩
    ⟨"ns1", "alpha", "fatedier/frpc:v0.43.0", "", "", none⟩
    ⟨"ns1", "alpha", "fatedier/frpc:v0.43.0", "", "", some wKey⟩
    (by decide) (by rfl) (by rfl) (by rfl) (by rfl) (by rfl) (by rfl) (by decide)

/-- C5: when neither managed object exists, one pass creates each of them
exactly once, each carrying a controller owner reference to the client
declaration, and both creations precede the readiness check, as the full
event trace shows. -/
theorem C5_creates_both_when_absent
    (co : Collab) (s : Store) (req : NamespacedName)
    (client : Client) (config : Config) (configuration : String)
    (cm0 cm : ConfigMap) (pod0 pod : Pod)
    (h1 : s.clients req = some client)
    (h2 : co.NewConfig client (filteredUpstreams client s.upstreams) = .ok config)
    (h3 : co.ConfigurationBuild config = .ok configuration)
    (h4 : co.ConfigMapBuild configuration client.name client.ns = .ok cm0)
    (h5 : SetControllerReferenceConfigMap client cm0 = .ok cm)
    (h6 : s.configMaps (NamespacedName.mk cm.ns cm.name) = none)
    (h8 : co.PodBuild client.name client.ns "fatedier/frpc:v0.43.0" = .ok pod0)
    (h9 : SetControllerReferencePod client pod0 = .ok pod)
    (h13 : s.pods (NamespacedName.mk pod.ns pod.name) = none) :
    (Reconcile co s req).trace =
      [Ev.getClient .caller req, Ev.listUpstreams .caller,
       Ev.getConfigMap .todo (NamespacedName.mk cm.ns cm.name),
       Ev.createConfigMap .todo cm,
       Ev.getPod .todo (NamespacedName.mk pod.ns pod.name),
       Ev.createPod .todo pod, Ev.sleepSeconds 10,
       Ev.checkPodRunning ""] ∧
    createdConfigMaps (Reconcile co s req).trace = [cm] ∧
    createdPods (Reconcile co s req).trace = [pod] ∧
    cm.owner = some (NamespacedName.mk client.ns client.name) ∧
    pod.owner = some (NamespacedName.mk client.ns client.name) := by
  refine ⟨?_, ?_, ?_,
    setControllerReferenceConfigMap_owner h5, setControllerReferencePod_owner h9⟩
  · simp only [Reconcile, Store.insertConfigMap, h1, h2, h3, h4, h5, h6, h8, h9, h13]
    simp [emptyPod]
  · simp only [Reconcile, Store.insertConfigMap, h1, h2, h3, h4, h5, h6, h8, h9, h13]
    simp [createdConfigMaps, emptyPod]
  · simp only [Reconcile, Store.insertConfigMap, h1, h2, h3, h4, h5, h6, h8, h9, h13]
    simp [createdPods, emptyPod]

/-- C5 witness: the empty store scenario evaluated at the concrete
fixtures. -/
theorem C5_creates_both_when_absent_witness :
    (Reconcile wCo wStoreEmpty wKey).trace =
      [Ev.getClient .caller wKey, Ev.listUpstreams .caller,
       Ev.getConfigMap .todo wKey,
       Ev.createConfigMap .todo ⟨"ns1", "alpha", some [("frpc.ini", "body")], some wKey⟩,
       Ev.getPod .todo wKey,
       Ev.createPod .todo ⟨"ns1", "alpha", "fatedier/frpc:v0.43.0", "", "", some wKey⟩,
       Ev.sleepSeconds 10, Ev.checkPodRunning ""] ∧
    createdConfigMaps (Reconcile wCo wStoreEmpty wKey).trace =
      [⟨"ns1", "alpha", some [("frpc.ini", "body")], some wKey⟩] ∧
    createdPods (Reconcile wCo wStoreEmpty wKey).trace =
      [⟨"ns1", "alpha", "fatedier/frpc:v0.43.0", "", "", some wKey⟩] ∧
    ConfigMap.owner ⟨"ns1", "alpha", some [("frpc.ini", "body")], some wKey⟩ = some wKey ∧
    Pod.owner ⟨"ns1", "alpha", "fatedier/frpc:v0.43.0", "", "", some wKey⟩ = some wKey :=
  C5_creates_both_when_absent wCo wStoreEmpty wKey wClient ⟨"", "body"⟩ "body"
    ⟨"ns1", "alpha", some [("frpc.ini", "body")], none⟩
    ⟨"ns1", "alpha", some [("frpc.ini", "body")], some wKey⟩
    ⟨"ns1", "alpha", "fatedier/frpc:v0.43.0", "", "", none⟩
    ⟨"ns1", "alpha", "fatedier/frpc:v0.43.0", "", "", some wKey⟩
    (by decide) (by rfl) (by rfl) (by rfl) (by rfl) (by decide) (by rfl) (by rfl)
    (by decide)

end Frp

namespace Frp

/-- C7: when the artifact already exists, the pass never writes it: the
stored object is unchanged at the end of the pass, no artifact Create is
issued, and any drift comparison performed compares the originally
fetched stored content against the rendered content. -/
theorem C7_existing_artifact_untouched
    (co : Collab) (s : Store) (req : NamespacedName)
    (client : Client) (config : Config) (configuration : String)
    (cm0 cm scm : ConfigMap)
    (h1 : s.clients req = some client)
    (h2 : co.NewConfig client (filteredUpstreams client s.upstreams) = .ok config)
    (h3 : co.ConfigurationBuild config = .ok configuration)
    (h4 : co.ConfigMapBuild configuration client.name client.ns = .ok cm0)
    (h5 : SetControllerReferenceConfigMap client cm0 = .ok cm)
    (h6 : s.configMaps (NamespacedName.mk cm.ns cm.name) = some scm) :
    (Reconcile co s req).store.configMaps (NamespacedName.mk cm.ns cm.name) = some scm ∧
    createdConfigMaps (Reconcile co s req).trace = [] ∧
    (driftCompares (Reconcile co s req).trace = [] ∨
     driftCompares (Reconcile co s req).trace = [(scm.data, cm.data)]) := by
  simp only [Reconcile, Store.insertConfigMap, Store.insertPod, h1, h2, h3, h4, h5, h6]
  repeat' split
  all_goals simp_all [createdConfigMaps, driftCompares]

/-- C7 witness: the drift scenario evaluated at the concrete fixtures. -/
theorem C7_existing_artifact_untouched_witness :
    (Reconcile wCo wStoreDrift wKey).store.configMaps wKey =
      some ⟨"ns1", "alpha", some [("frpc.ini", "stale")], some wKey⟩ ∧
    createdConfigMaps (Reconcile wCo wStoreDrift wKey).trace = [] ∧
    (driftCompares (Reconcile wCo wStoreDrift wKey).trace = [] ∨
     driftCompares (Reconcile wCo wStoreDrift wKey).trace =
       [(some [("frpc.ini", "stale")], some [("frpc.ini", "body")])]) :=
  C7_existing_artifact_untouched wCo wStoreDrift wKey wClient ⟨"", "body"⟩ "body"
    ⟨"ns1", "alpha", some [("frpc.ini", "body")], none⟩
    ⟨"ns1", "alpha", some [("frpc.ini", "body")], some wKey⟩
    ⟨"ns1", "alpha", some [("frpc.ini", "stale")], some wKey⟩
    (by decide) (by rfl) (by rfl) (by rfl) (by rfl) (by decide)

end Frp

namespace Frp

/-- Modelled from the spec: the claims membership predicate for the
Related-Resource Set reads the owning-client reference as the full
identity of the Declaration, namespace plus name. The reference field
itself carries only a name, so the namespace side of the identity can
only be the namespace the Upstream lives in: the Upstream belongs to the
set when its owning-client field names the client and it lives in the
namespace of the Declaration. -/
def specOwningClientMatches (client : Client) (u : Upstream) : Prop :=
  u.specClient = client.name ∧ u.ns = client.ns

/-- C3 counterexample: an Upstream in namespace b whose owning-client
field names the client is included by the code filter although its
owning-client reference does not equal the Declaration identity
(namespace a plus name), so identity-based membership fails. -/
theorem C3_filter_counterexample :
    filteredUpstreams ⟨"a", "c", "p"⟩ [⟨"b", "u1", "c", "x"⟩] =
      [⟨"b", "u1", "c", "x"⟩] ∧
    ¬ specOwningClientMatches ⟨"a", "c", "p"⟩ ⟨"b", "u1", "c", "x"⟩ := by
  refine ⟨by decide, ?_⟩
  simp [specOwningClientMatches]

/-- C3 amended: an Upstream from the unrestricted listing is included in
the filtered set used to build the domain config exactly when its
owning-client field equals the Declaration name; the namespace plays no
role, and an empty filtered result is possible and valid. -/
theorem C3_filter_matches_name_only
    (client : Client) (u : Upstream) (us : List Upstream) :
    u ∈ filteredUpstreams client us ↔ (u ∈ us ∧ u.specClient = client.name) := by
  simp [filteredUpstreams, List.mem_filter]

/-- C8: the four generic store calls of a pass, the ConfigMap Get and
Create and the Pod Get and Create, receive the context.TODO value rather
than the caller-supplied context, as the recorded trace of a full
creation pass shows; only the Client Get and the Upstream List receive
the caller context, so a caller cancellation signal is not observable by
every remote call. -/
theorem C8_store_calls_ignore_caller_context :
    Ev.getConfigMap CtxVal.todo wKey ∈ (Reconcile wCo wStoreEmpty wKey).trace ∧
    Ev.createConfigMap CtxVal.todo
      ⟨"ns1", "alpha", some [("frpc.ini", "body")], some wKey⟩ ∈
      (Reconcile wCo wStoreEmpty wKey).trace ∧
    Ev.getPod CtxVal.todo wKey ∈ (Reconcile wCo wStoreEmpty wKey).trace ∧
    Ev.createPod CtxVal.todo
      ⟨"ns1", "alpha", "fatedier/frpc:v0.43.0", "", "", some wKey⟩ ∈
      (Reconcile wCo wStoreEmpty wKey).trace ∧
    CtxVal.todo ≠ CtxVal.caller := by
  decide

end Frp

namespace Frp

/-- C2 counterexample: starting from a store whose artifact already
exists with content drifted from the rendered document and whose pod is
Running, the first pass reloads but writes nothing back, so the second
pass, run on the store the first pass returned with no external change,
calls the Reload Notifier again, contradicting the claim that the second
run makes no reload call. -/
theorem C2_idempotence_counterexample :
    reloadCalls (Reconcile wCo wStoreDrift wKey).trace = [⟨"10.1.2.3", "body"⟩] ∧
    reloadCalls (Reconcile wCo (Reconcile wCo wStoreDrift wKey).store wKey).trace =
      [⟨"10.1.2.3", "body"⟩] := by
  decide

end Frp

namespace Frp

/-- C2 amended: running Reconcile twice in succession on the same
identity with no external change between the runs never issues an
additional Create on the second run, and the second run calls the Reload
Notifier only when the first run already made the very same reload call,
which happens exactly when a pre-existing stored artifact drifts from the
rendered document and is never written back. -/
theorem C2_second_pass_no_creates_no_new_reload
    (co : Collab) (s : Store) (req : NamespacedName) :
    createdConfigMaps (Reconcile co (Reconcile co s req).store req).trace = [] ∧
    createdPods (Reconcile co (Reconcile co s req).store req).trace = [] ∧
    (reloadCalls (Reconcile co (Reconcile co s req).store req).trace = [] ∨
     reloadCalls (Reconcile co (Reconcile co s req).store req).trace =
       reloadCalls (Reconcile co s req).trace) := by
  cases h1 : s.clients req with
  | none =>
    simp [Reconcile, h1, createdConfigMaps, createdPods, reloadCalls]
  | some client =>
  cases h2 : co.NewConfig client (filteredUpstreams client s.upstreams) with
  | error e =>
    simp [Reconcile, h1, h2, createdConfigMaps, createdPods, reloadCalls]
  | ok config =>
  cases h3 : co.ConfigurationBuild config with
  | error e =>
    simp [Reconcile, h1, h2, h3, createdConfigMaps, createdPods, reloadCalls]
  | ok configuration =>
  cases h4 : co.ConfigMapBuild configuration client.name client.ns with
  | error e =>
    simp [Reconcile, h1, h2, h3, h4, createdConfigMaps, createdPods, reloadCalls]
  | ok cm0 =>
  cases h5 : SetControllerReferenceConfigMap client cm0 with
  | error e =>
    simp [Reconcile, h1, h2, h3, h4, h5, createdConfigMaps, createdPods, reloadCalls]
  | ok cm =>
  cases h6 : s.configMaps (NamespacedName.mk cm.ns cm.name) with
  | some scm =>
    cases h8 : co.PodBuild client.name client.ns "fatedier/frpc:v0.43.0" with
    | error e =>
      simp [Reconcile, h1, h2, h3, h4, h5, h6, h8,
        createdConfigMaps, createdPods, reloadCalls]
    | ok pod0 =>
    cases h9 : SetControllerReferencePod client pod0 with
    | error e =>
      simp [Reconcile, h1, h2, h3, h4, h5, h6, h8, h9,
        createdConfigMaps, createdPods, reloadCalls]
    | ok pod =>
    cases h10 : s.pods (NamespacedName.mk pod.ns pod.name) with
    | none =>
      simp [Reconcile, Store.insertPod, createdPodObject, h1, h2, h3, h4, h5, h6,
        h8, h9, h10, emptyPod, createdConfigMaps, createdPods, reloadCalls]
    | some p =>
    by_cases hph : p.phase = "Running"
    · by_cases hd : scm.data = cm.data
      · simp [Reconcile, h1, h2, h3, h4, h5, h6, h8, h9, h10, hph, hd,
          createdConfigMaps, createdPods, reloadCalls]
      · cases hrl : co.Reload { config with adminAddress := p.podIP } with
        | none =>
          simp [Reconcile, h1, h2, h3, h4, h5, h6, h8, h9, h10, hph, hd, hrl,
            createdConfigMaps, createdPods, reloadCalls]
        | some e2 =>
          simp [Reconcile, h1, h2, h3, h4, h5, h6, h8, h9, h10, hph, hd, hrl,
            createdConfigMaps, createdPods, reloadCalls]
    · simp [Reconcile, h1, h2, h3, h4, h5, h6, h8, h9, h10, hph,
        createdConfigMaps, createdPods, reloadCalls]
  | none =>
    cases h8 : co.PodBuild client.name client.ns "fatedier/frpc:v0.43.0" with
    | error e =>
      simp [Reconcile, Store.insertConfigMap, h1, h2, h3, h4, h5, h6, h8,
        createdConfigMaps, createdPods, reloadCalls]
    | ok pod0 =>
    cases h9 : SetControllerReferencePod client pod0 with
    | error e =>
      simp [Reconcile, Store.insertConfigMap, h1, h2, h3, h4, h5, h6, h8, h9,
        createdConfigMaps, createdPods, reloadCalls]
    | ok pod =>
    cases h10 : s.pods (NamespacedName.mk pod.ns pod.name) with
    | none =>
      simp [Reconcile, Store.insertConfigMap, Store.insertPod, createdPodObject,
        h1, h2, h3, h4, h5, h6, h8, h9, h10, emptyPod, emptyConfigMap,
        createdConfigMaps, createdPods, reloadCalls]
    | some p =>
    by_cases hph : p.phase = "Running"
    · cases hcd : cm.data with
      | none =>
        simp [Reconcile, Store.insertConfigMap, h1, h2, h3, h4, h5, h6, h8, h9,
          h10, hph, hcd, emptyConfigMap, createdConfigMaps, createdPods, reloadCalls]
      | some l =>
        cases hrl : co.Reload { config with adminAddress := p.podIP } with
        | none =>
          simp [Reconcile, Store.insertConfigMap, h1, h2, h3, h4, h5, h6, h8, h9,
            h10, hph, hcd, hrl, emptyConfigMap,
            createdConfigMaps, createdPods, reloadCalls]
        | some e2 =>
          simp [Reconcile, Store.insertConfigMap, h1, h2, h3, h4, h5, h6, h8, h9,
            h10, hph, hcd, hrl, emptyConfigMap,
            createdConfigMaps, createdPods, reloadCalls]
    · simp [Reconcile, Store.insertConfigMap, h1, h2, h3, h4, h5, h6, h8, h9,
        h10, hph, createdConfigMaps, createdPods, reloadCalls]

end Frp
